import Mathlib

/-!
Shallow embedding of the backtest core of the Algo_Trading_System
repository (`data_pipeline/backtest.py`, `data_pipeline/signal_logic.py`,
`data_pipeline/indicators.py`).

Prices and indicator values are modelled as exact rationals (`ℚ`);
pandas rows become Lean structures, and a DataFrame becomes a list of
rows.  NaN entries produced by rolling/indicator computations are
modelled as `Option` values, and `dropna` filters the rows in which any
indicator value is `none`.
-/

namespace AlgoTrading

/-- A row of the raw price DataFrame handed to `run_backtest`
(`Date` index, `Open` and `Close` columns; high/low/volume are unused
by the core and omitted).  `openPrice` embeds the `Open` column
(`open` is a Lean keyword). -/
structure PriceRow where
  date : String
  openPrice : ℚ
  close : ℚ
deriving DecidableEq, Repr

/-- A row after `calculate_indicators` has added the `RSI`, `SMA_20`
and `SMA_50` columns; each indicator is `none` where pandas would hold
NaN. -/
structure IndRow where
  date : String
  openPrice : ℚ
  close : ℚ
  rsi : Option ℚ
  sma20 : Option ℚ
  sma50 : Option ℚ
deriving DecidableEq, Repr

/-- A row of the cleaned frame (`data.dropna()`): every indicator value
is present. -/
structure FeatRow where
  date : String
  openPrice : ℚ
  close : ℚ
  rsi : ℚ
  sma20 : ℚ
  sma50 : ℚ
deriving DecidableEq, Repr

/-- Default row used for total list indexing (`List.getD`); every index
actually used in the source is proved in bounds (see the safety claim),
so this value is never observed. -/
def defFeat : FeatRow := ⟨"", 0, 0, 0, 0, 0⟩

/-- `data.dropna()`: keep exactly the rows in which all three indicator
columns hold a value (the price columns of the input frame never hold
NaN). -/
def dropna (df : List IndRow) : List FeatRow :=
  df.filterMap fun r =>
    match r.rsi, r.sma20, r.sma50 with
    | some a, some b, some c => some ⟨r.date, r.openPrice, r.close, a, b, c⟩
    | _, _, _ => none

/-- The signal conditions of the backtest loop body
(`backtest.py`, lines 44–48):
`rsi_signal = today['RSI'] < 30` and
`crossover_signal = (today['SMA_20'] > today['SMA_50']) and
(yesterday['SMA_20'] <= yesterday['SMA_50'])`,
evaluated at loop index `i` with `yesterday = data.iloc[i-1]`,
`today = data.iloc[i]`. -/
def detect (data : List FeatRow) (i : ℕ) : Bool :=
  let yesterday := data.getD (i - 1) defFeat
  let today := data.getD i defFeat
  let rsi_signal := decide (today.rsi < 30)
  let crossover_signal :=
    decide (today.sma20 > today.sma50) && decide (yesterday.sma20 ≤ yesterday.sma50)
  rsi_signal && crossover_signal

/-- The trade record appended to `trades` on a detection
(`backtest.py`, lines 59–68).  The pandas `Timestamp.strftime` on the
index is modelled by carrying the date along as a string; `ret` embeds
the `Return (%)` entry and `status` the `Status` entry. -/
structure Trade where
  stock : String
  buy_date : String
  buy_price : ℚ
  sell_date : String
  sell_price : ℚ
  ret : ℚ
  status : String
deriving DecidableEq, Repr

/-- The trade built at loop index `i`: buy at the open of bar `i+1`,
sell at the open of bar `i+6`,
`pct_return = ((sell_price - buy_price) / buy_price) * 100`,
`'Status': 'Win' if pct_return > 0 else 'Loss'`. -/
def mkTrade (ticker : String) (data : List FeatRow) (i : ℕ) : Trade :=
  let buyRow := data.getD (i + 1) defFeat
  let sellRow := data.getD (i + 6) defFeat
  let pct_return := ((sellRow.openPrice - buyRow.openPrice) / buyRow.openPrice) * 100
  { stock := ticker
    buy_date := buyRow.date
    buy_price := buyRow.openPrice
    sell_date := sellRow.date
    sell_price := sellRow.openPrice
    ret := pct_return
    status := if pct_return > 0 then "Win" else "Loss" }

/-- One iteration of the scan loop: a trade is emitted exactly when the
signal conditions hold at index `i`. -/
def tradeOpt (ticker : String) (data : List FeatRow) (i : ℕ) : Option Trade :=
  if detect data i then some (mkTrade ticker data i) else none

/-- Step 2 of `run_backtest` (lines 39–68): the scan
`for i in range(1, len(data) - 6)` collecting the emitted trades;
Python's `range(1, len(data) - 6)` enumerates `1, …, len(data) - 7`
and is empty when `len(data) - 6 ≤ 1`. -/
def simulate (ticker : String) (data : List FeatRow) : List Trade :=
  (List.range' 1 (data.length - 7)).filterMap (tradeOpt ticker data)

/-- Rounding to two decimal places, modelling Python's `f"{x:.2f}"`
formatting applied to `win_ratio` and `avg_return` in the summary dict
(`backtest.py`, lines 89–94).  Mathlib's `round` rounds halves up;
Python rounds the nearest binary double half-to-even — the two agree
off ties, and every value considered here is off a tie. -/
def roundTo2 (q : ℚ) : ℚ := ((round (q * 100) : ℤ) : ℚ) / 100

/-- The summary dict returned by `run_backtest`; the source keys are
`total_trades`, `win_ratio`, `avg_return` and `trade_log` (the middle
two are percentage strings in the non-empty branch, modelled as their
two-decimal rounded numeric value). -/
structure Summary where
  total_trades : ℕ
  win_ratio_pct : ℚ
  avg_return_pct : ℚ
  trade_log : List Trade
deriving DecidableEq, Repr

/-- Lines 71–94 of `run_backtest`: the zero-trade early-return dict,
else Step 3 — `wins` counts rows with `Status == 'Win'`,
`win_ratio = (wins / total_trades) * 100 if total_trades > 0 else 0`,
`avg_return = trade_log_df['Return (%)'].mean()`, both formatted to
two decimals in the returned dict. -/
def aggregate (trades : List Trade) : Summary :=
  if trades.isEmpty then
    { total_trades := 0, win_ratio_pct := 0, avg_return_pct := 0, trade_log := [] }
  else
    let total_trades := trades.length
    let wins := (trades.filter fun t => t.status == "Win").length
    let win_ratio_val : ℚ :=
      if total_trades > 0 then ((wins : ℚ) / (total_trades : ℚ)) * 100 else 0
    let avg_return : ℚ := (trades.map Trade.ret).sum / (trades.length : ℚ)
    { total_trades := total_trades
      win_ratio_pct := roundTo2 win_ratio_val
      avg_return_pct := roundTo2 avg_return
      trade_log := trades }

/-- `data['Close'].rolling(window=w).mean()` at row `i`: the mean of
the `w` trailing closes when at least `w` rows are available, NaN
(`none`) otherwise. -/
def smaAt (closes : List ℚ) (w i : ℕ) : Option ℚ :=
  if w ≤ i + 1 then some (((closes.take (i + 1)).drop (i + 1 - w)).sum / (w : ℚ))
  else none

/-- `calculate_indicators` (`indicators.py`, lines 20–31): adds the
`RSI`, `SMA_20` and `SMA_50` columns.  The RSI column comes from the
external `ta` library (`ta.momentum.rsi(close, window=14)`), which is
not part of this repository and an explicit non-goal of the spec; it
is therefore a parameter `rsiFn` mapping the close column to the RSI
column (missing entries read as NaN). -/
def calculate_indicators (rsiFn : List ℚ → List (Option ℚ))
    (data : List PriceRow) : List IndRow :=
  let closes := data.map PriceRow.close
  let rsis := rsiFn closes
  (List.range data.length).map fun i =>
    let r := data.getD i ⟨"", 0, 0⟩
    { date := r.date, openPrice := r.openPrice, close := r.close,
      rsi := rsis.getD i none, sma20 := smaAt closes 20 i,
      sma50 := smaAt closes 50 i }

/-- `run_backtest` (`backtest.py`): `None` for missing or empty input,
indicator computation on a copy, `dropna`, the `len(data) < 7` guard
returning `None`, then the scan and the summary (including the
zero-trade summary dict). -/
def run_backtest (rsiFn : List ℚ → List (Option ℚ))
    (stock_data : Option (List PriceRow)) (ticker : String) : Option Summary :=
  match stock_data with
  | none => none
  | some sd =>
    if sd.isEmpty then none
    else
      let data := dropna (calculate_indicators rsiFn sd)
      if data.length < 7 then none
      else some (aggregate (simulate ticker data))

/-- `check_buy_signal` (`signal_logic.py`, lines 26–59): `None` input
(a missing indicator column is unrepresentable in the typed row and
takes the same early return) gives `(False, None, None, None)`;
otherwise `dropna`, the `len(data) < 2` guard, then the RSI and
crossover conditions on the last two rows (`iloc[-1]`, `iloc[-2]`),
returning the signal and the latest raw values. -/
def check_buy_signal (data : Option (List IndRow)) :
    Bool × Option ℚ × Option ℚ × Option ℚ :=
  match data with
  | none => (false, none, none, none)
  | some df =>
    let d := dropna df
    if d.length < 2 then (false, none, none, none)
    else
      let latest_data := d.getD (d.length - 1) defFeat
      let previous_data := d.getD (d.length - 2) defFeat
      let rsi_condition := decide (latest_data.rsi < 30)
      let crossover_condition :=
        decide (latest_data.sma20 > latest_data.sma50) &&
          decide (previous_data.sma20 ≤ previous_data.sma50)
      (rsi_condition && crossover_condition,
        some latest_data.rsi, some latest_data.sma20, some latest_data.sma50)

/-- One iteration of the scan loop with every `iloc` access checked:
`none` signals an out-of-bounds access, `some none` a clean iteration
without a trade, `some (some t)` an emitted trade `t`.  The access
pattern follows the source: `i-1` and `i` are read to evaluate the
signal, `i+1` and `i+6` only on a detection. -/
def tradeOptChecked (ticker : String) (data : List FeatRow) (i : ℕ) :
    Option (Option Trade) :=
  match data[i - 1]?, data[i]? with
  | some yesterday, some today =>
    if decide (today.rsi < 30) &&
        (decide (today.sma20 > today.sma50) &&
          decide (yesterday.sma20 ≤ yesterday.sma50)) then
      match data[i + 1]?, data[i + 6]? with
      | some buyRow, some sellRow =>
        some (some
          { stock := ticker
            buy_date := buyRow.date
            buy_price := buyRow.openPrice
            sell_date := sellRow.date
            sell_price := sellRow.openPrice
            ret := ((sellRow.openPrice - buyRow.openPrice) / buyRow.openPrice) * 100
            status :=
              if ((sellRow.openPrice - buyRow.openPrice) / buyRow.openPrice) * 100 > 0
              then "Win" else "Loss" })
      | _, _ => none
    else some none
  | _, _ => none

/-- The checked scan over a list of loop indices: fails (`none`) as
soon as one iteration would access an index out of bounds. -/
def scanChecked (ticker : String) (data : List FeatRow) : List ℕ → Option (List Trade)
  | [] => some []
  | i :: is =>
    match tradeOptChecked ticker data i with
    | none => none
    | some step =>
      match scanChecked ticker data is with
      | none => none
      | some rest =>
        match step with
        | some t => some (t :: rest)
        | none => some rest

/-- The scan of `run_backtest` with all element accesses checked. -/
def simulateChecked (ticker : String) (data : List FeatRow) : Option (List Trade) :=
  scanChecked ticker data (List.range' 1 (data.length - 7))

/-- A DataFrame object for the mutation model: its price rows plus,
once `calculate_indicators` has added them in place, the indicator
columns (a raw caller frame has `indCols = none`, i.e. no `RSI`,
`SMA_20`, `SMA_50` columns yet). -/
structure Frame where
  rows : List PriceRow
  indCols : Option (List IndRow)
deriving DecidableEq, Repr

/-- Default frame for total heap indexing. -/
def defFrame : Frame := ⟨[], none⟩

/-- `calculate_indicators` as the in-place effect it has on the frame
object passed to it (`data['RSI'] = …`, `data['SMA_20'] = …`,
`data['SMA_50'] = …` assign new columns to that same object): the
frame at reference `r` of the heap gains the indicator columns; every
other frame is untouched. -/
def calcIndicatorsAt (rsiFn : List ℚ → List (Option ℚ)) (h : List Frame) (r : ℕ) :
    List Frame :=
  let f := h.getD r defFrame
  h.set r { rows := f.rows, indCols := some (calculate_indicators rsiFn f.rows) }

/-- `run_backtest` with the caller's DataFrame passed by reference into
a heap of live frames: `stock_data.copy()` allocates a fresh frame at
the end of the heap and `calculate_indicators` is invoked on that copy
(`backtest.py`, lines 27–28); the second component is the state of all
frames after the call (`dropna` is not in-place and allocates no
frame the caller can see). -/
def run_backtest_st (rsiFn : List ℚ → List (Option ℚ)) (h : List Frame) (r : ℕ)
    (ticker : String) : Option Summary × List Frame :=
  let f := h.getD r defFrame
  if f.rows.isEmpty then (none, h)
  else
    let h1 := h ++ [⟨f.rows, f.indCols⟩]
    let c := h.length
    let h2 := calcIndicatorsAt rsiFn h1 c
    let data := dropna (((h2.getD c defFrame).indCols).getD [])
    if data.length < 7 then (none, h2)
    else (some (aggregate (simulate ticker data)), h2)

/-- Concrete cleaned eight-bar series: bar 0 has the two moving
averages exactly equal, bar 1 has RSI 20 and the fast average strictly
above, so the scan (which visits only index 1) detects there, buys at
bar 2's open (100) and sells at bar 7's open (110). -/
def sampleA : List FeatRow :=
  [⟨"d0", 1, 1, 50, 4, 4⟩,
   ⟨"d1", 2, 2, 20, 5, 4⟩,
   ⟨"d2", 100, 3, 50, 5, 4⟩,
   ⟨"d3", 4, 4, 50, 5, 4⟩,
   ⟨"d4", 5, 5, 50, 5, 4⟩,
   ⟨"d5", 6, 6, 50, 5, 4⟩,
   ⟨"d6", 7, 7, 50, 5, 4⟩,
   ⟨"d7", 110, 8, 50, 5, 4⟩]

/-- The single trade the scan emits on `sampleA`. -/
def tradeA : Trade := ⟨"T", "d2", 100, "d7", 110, 10, "Win"⟩

/-- A cleaned series of fewer than seven bars. -/
def sampleShort : List FeatRow :=
  [⟨"d0", 1, 1, 50, 4, 4⟩, ⟨"d1", 2, 2, 20, 5, 4⟩, ⟨"d2", 100, 3, 50, 5, 4⟩]

/-- Two-row frame with all indicator columns present (cleans to two
bars, with a signal on the last one). -/
def sampleB : List IndRow :=
  [⟨"b0", 1, 1, some 50, some 4, some 4⟩,
   ⟨"b1", 2, 2, some 20, some 5, some 4⟩]

/-- One-row frame whose single row still has a NaN indicator: it
cleans to fewer than two bars. -/
def sampleC : List IndRow :=
  [⟨"c0", 1, 1, none, some 1, some 1⟩]

/-- Three concrete trade records, one of which is a Win. -/
def ts3 : List Trade :=
  [⟨"T", "a", 100, "b", 110, 10, "Win"⟩,
   ⟨"T", "c", 100, "d", 95, -5, "Loss"⟩,
   ⟨"T", "e", 100, "f", 99, -1, "Loss"⟩]

/-- A trivial RSI provider for concrete heap runs. -/
def rsiFn0 : List ℚ → List (Option ℚ) := fun _ => []

/-- A one-frame heap holding a single-bar raw price frame. -/
def heap0 : List Frame := [⟨[⟨"d0", 1, 1⟩], none⟩]

/-- Characterization of the signal conditions as a proposition. -/
theorem detect_eq_true_iff (data : List FeatRow) (i : ℕ) :
    detect data i = true ↔
      (data.getD i defFeat).rsi < 30 ∧
      (data.getD i defFeat).sma20 > (data.getD i defFeat).sma50 ∧
      (data.getD (i - 1) defFeat).sma20 ≤ (data.getD (i - 1) defFeat).sma50 := by
  simp [detect, and_assoc]

/-- Claim C1: the detector fires at index `i` iff `rsi < 30` on bar
`i`, `sma20 > sma50` on bar `i`, and `sma20 ≤ sma50` on bar `i-1`; in
particular prior-day equality followed by a rise triggers, a prior day
already strictly above does not re-trigger, and `rsi ≥ 30` never
triggers. -/
theorem C1_detect_characterization (data : List FeatRow) (i : ℕ)
    (h1 : 1 ≤ i) (h2 : i < data.length) :
    (detect data i = true ↔
      (data.getD i defFeat).rsi < 30 ∧
      (data.getD i defFeat).sma20 > (data.getD i defFeat).sma50 ∧
      (data.getD (i - 1) defFeat).sma20 ≤ (data.getD (i - 1) defFeat).sma50) ∧
    ((data.getD (i - 1) defFeat).sma20 = (data.getD (i - 1) defFeat).sma50 →
      (data.getD i defFeat).rsi < 30 →
      (data.getD i defFeat).sma20 > (data.getD i defFeat).sma50 →
      detect data i = true) ∧
    ((data.getD (i - 1) defFeat).sma20 > (data.getD (i - 1) defFeat).sma50 →
      detect data i = false) ∧
    (30 ≤ (data.getD i defFeat).rsi → detect data i = false) := by
  refine ⟨detect_eq_true_iff data i, ?_, ?_, ?_⟩
  · intro he hr hgt
    exact (detect_eq_true_iff data i).2 ⟨hr, hgt, le_of_eq he⟩
  · intro hgt
    rw [Bool.eq_false_iff]
    intro hd
    obtain ⟨_, _, hle⟩ := (detect_eq_true_iff data i).1 hd
    exact absurd hle (not_le.mpr hgt)
  · intro hge
    rw [Bool.eq_false_iff]
    intro hd
    obtain ⟨hlt, _, _⟩ := (detect_eq_true_iff data i).1 hd
    exact absurd hlt (not_lt.mpr hge)

/-- Witness for C1 at `sampleA`, index 1: prior-day equality of the
averages, a rise and RSI 20 gives a detection. -/
theorem C1_witness : detect sampleA 1 = true :=
  (C1_detect_characterization sampleA 1 (by decide) (by decide)).2.1 rfl
    (by decide) (by decide)

/-- Collecting the values of a guarded emission over a list is mapping
over the indices that pass the guard. -/
theorem filterMap_guard {α β : Type} (p : α → Bool) (f : α → β) (l : List α) :
    (l.filterMap fun i => if p i then some (f i) else none) =
      (l.filter p).map f := by
  induction l with
  | nil => rfl
  | cons a l ih =>
    by_cases h : p a <;> simp [List.filterMap_cons, List.filter_cons, h, ih]

/-- Claim C2: on a cleaned series of length `n ≥ 7` the scan evaluates
the detector at exactly the indices `1, …, n-7`, emits one trade per
detecting index — entry at the open of bar `i+1`, exit at the open of
bar `i+6` — and the trade count equals the count of detecting indices
(overlapping windows included, since each index is evaluated
independently). -/
theorem C2_simulate_scan (ticker : String) (data : List FeatRow)
    (h : 7 ≤ data.length) :
    simulate ticker data =
      ((List.range' 1 (data.length - 7)).filter fun i => detect data i).map
        (mkTrade ticker data) ∧
    (∀ i : ℕ, i ∈ List.range' 1 (data.length - 7) ↔ 1 ≤ i ∧ i ≤ data.length - 7) ∧
    (∀ i : ℕ,
      (mkTrade ticker data i).buy_price = (data.getD (i + 1) defFeat).openPrice ∧
      (mkTrade ticker data i).sell_price = (data.getD (i + 6) defFeat).openPrice) ∧
    (simulate ticker data).length =
      ((List.range' 1 (data.length - 7)).filter fun i => detect data i).length := by
  have hmain :
      simulate ticker data =
        ((List.range' 1 (data.length - 7)).filter fun i => detect data i).map
          (mkTrade ticker data) :=
    filterMap_guard (fun i => detect data i) (mkTrade ticker data)
      (List.range' 1 (data.length - 7))
  refine ⟨hmain, ?_, ?_, ?_⟩
  · intro i
    rw [List.mem_range'_1]
    omega
  · intro i
    exact ⟨rfl, rfl⟩
  · rw [hmain, List.length_map]

/-- Witness for C2 at `sampleA` (eight bars). -/
theorem C2_witness :
    simulate "T" sampleA =
      ((List.range' 1 (sampleA.length - 7)).filter fun i => detect sampleA i).map
        (mkTrade "T" sampleA) ∧
    (∀ i : ℕ, i ∈ List.range' 1 (sampleA.length - 7) ↔ 1 ≤ i ∧ i ≤ sampleA.length - 7) ∧
    (∀ i : ℕ,
      (mkTrade "T" sampleA i).buy_price = (sampleA.getD (i + 1) defFeat).openPrice ∧
      (mkTrade "T" sampleA i).sell_price = (sampleA.getD (i + 6) defFeat).openPrice) ∧
    (simulate "T" sampleA).length =
      ((List.range' 1 (sampleA.length - 7)).filter fun i => detect sampleA i).length :=
  C2_simulate_scan "T" sampleA (by decide)

/-- Claim C7: the scan on a series of fewer than seven bars emits no
trades (the loop range is empty). -/
theorem C7_simulate_short (ticker : String) (data : List FeatRow)
    (h : data.length < 7) : simulate ticker data = [] := by
  unfold simulate
  have h0 : data.length - 7 = 0 := by omega
  rw [h0]
  rfl

/-- Witness for C7 on a three-bar series. -/
theorem C7_witness : simulate "T" sampleShort = [] :=
  C7_simulate_short "T" sampleShort (by decide)

/-- Claim C5: aggregating zero trades is not an error: the summary has
zero total trades, the zero sentinel for both percentage fields, and
an empty trade log. -/
theorem C5_aggregate_empty :
    aggregate [] =
      { total_trades := 0, win_ratio_pct := 0, avg_return_pct := 0, trade_log := [] } :=
  rfl

/-- Claim C3: every trade the scan emits has
`ret = (sell_price - buy_price) / buy_price * 100`, is a Win exactly
when that return is strictly positive, is a Loss at a return of
exactly zero, and has no third outcome category. -/
theorem C3_trade_return_outcome (ticker : String) (data : List FeatRow) (t : Trade)
    (ht : t ∈ simulate ticker data) :
    t.ret = (t.sell_price - t.buy_price) / t.buy_price * 100 ∧
    (t.status = "Win" ↔ 0 < t.ret) ∧
    (t.ret = 0 → t.status = "Loss") ∧
    (t.status = "Win" ∨ t.status = "Loss") := by
  obtain ⟨i, _, hopt⟩ := List.mem_filterMap.mp ht
  unfold tradeOpt at hopt
  by_cases hd : detect data i
  · rw [if_pos hd, Option.some_inj] at hopt
    subst hopt
    unfold mkTrade
    by_cases hpos :
        ((data.getD (i + 6) defFeat).openPrice - (data.getD (i + 1) defFeat).openPrice) /
            (data.getD (i + 1) defFeat).openPrice * 100 > 0
    · simp only [if_pos hpos]
      exact ⟨trivial, ⟨fun _ => hpos, fun _ => trivial⟩,
        fun h0 => absurd h0 (ne_of_gt hpos), Or.inl trivial⟩
    · simp only [if_neg hpos]
      exact ⟨trivial, ⟨fun hw => absurd hw (by decide), fun hlt => absurd hlt hpos⟩,
        fun _ => trivial, Or.inr trivial⟩
  · rw [if_neg hd] at hopt
    exact absurd hopt (by simp)

/-- The scan on `sampleA` emits exactly `tradeA`. -/
theorem simulate_sampleA : simulate "T" sampleA = [tradeA] := by
  simp only [simulate, tradeOpt, detect, mkTrade, sampleA, tradeA, List.range',
    List.filterMap, defFeat]
  norm_num

/-- Witness for C3 at the trade emitted on `sampleA`. -/
theorem C3_witness :
    tradeA.ret = (tradeA.sell_price - tradeA.buy_price) / tradeA.buy_price * 100 ∧
    (tradeA.status = "Win" ↔ 0 < tradeA.ret) ∧
    (tradeA.ret = 0 → tradeA.status = "Loss") ∧
    (tradeA.status = "Win" ∨ tradeA.status = "Loss") :=
  C3_trade_return_outcome "T" sampleA tradeA
    (by rw [simulate_sampleA]; exact List.mem_singleton.mpr rfl)

/-- Claim C6: `run_backtest` yields a summary exactly when the input
frame is present and non-empty and the cleaned, indicator-augmented
series has at least seven bars; in every other case it yields the
`None` sentinel (the embedding is a total function, so no exception is
possible). -/
theorem C6_run_backtest_some_iff (rsiFn : List ℚ → List (Option ℚ))
    (stock_data : Option (List PriceRow)) (ticker : String) :
    (run_backtest rsiFn stock_data ticker).isSome = true ↔
      ∃ sd, stock_data = some sd ∧ sd ≠ [] ∧
        7 ≤ (dropna (calculate_indicators rsiFn sd)).length := by
  cases stock_data with
  | none => simp [run_backtest]
  | some sd =>
    by_cases he : sd = []
    · subst he
      simp [run_backtest]
    · by_cases hlen : (dropna (calculate_indicators rsiFn sd)).length < 7
      · simp only [run_backtest]
        rw [if_neg (by simp [he]), if_pos hlen]
        simp only [Option.isSome_none, Bool.false_eq_true, false_iff]
        rintro ⟨sd', hsd', -, hlen'⟩
        rw [Option.some_inj] at hsd'
        subst hsd'
        omega
      · simp only [run_backtest]
        rw [if_neg (by simp [he]), if_neg hlen]
        simp only [Option.isSome_some, true_iff]
        exact ⟨sd, rfl, he, by omega⟩

/-- Claim C8: on input that cleans to at least two bars,
`check_buy_signal` returns exactly the boolean the historical detector
gives at the last index of the cleaned series; on input that cleans to
fewer than two bars it returns `(False, None, None, None)` instead of
failing. -/
theorem C8_check_buy_signal_refines_detect (df : List IndRow) :
    (2 ≤ (dropna df).length →
      (check_buy_signal (some df)).1 =
        detect (dropna df) ((dropna df).length - 1)) ∧
    ((dropna df).length < 2 →
      check_buy_signal (some df) = (false, none, none, none)) := by
  constructor
  · intro h
    simp only [check_buy_signal]
    rw [if_neg (by omega)]
    unfold detect
    rw [show (dropna df).length - 1 - 1 = (dropna df).length - 2 by omega]
  · intro h
    simp only [check_buy_signal]
    rw [if_pos h]

/-- Witness for C8: the two-bar frame `sampleB` takes the detector
path, the one-bar frame `sampleC` the insufficient-history path. -/
theorem C8_witness :
    (check_buy_signal (some sampleB)).1 =
      detect (dropna sampleB) ((dropna sampleB).length - 1) ∧
    check_buy_signal (some sampleC) = (false, none, none, none) :=
  ⟨(C8_check_buy_signal_refines_detect sampleB).1 (by decide),
   (C8_check_buy_signal_refines_detect sampleC).2 (by decide)⟩

/-- When the loop index keeps `i + 6` in bounds, the checked iteration
succeeds and agrees with the unchecked one. -/
theorem tradeOptChecked_eq (ticker : String) (data : List FeatRow) (i : ℕ)
    (h6 : i + 6 < data.length) :
    tradeOptChecked ticker data i = some (tradeOpt ticker data i) := by
  have h0 : i - 1 < data.length := by omega
  have h1 : i < data.length := by omega
  have h2 : i + 1 < data.length := by omega
  unfold tradeOptChecked tradeOpt detect mkTrade
  simp only [List.getElem?_eq_getElem h0, List.getElem?_eq_getElem h1,
    List.getElem?_eq_getElem h2, List.getElem?_eq_getElem h6,
    List.getD_eq_getElem _ _ h0, List.getD_eq_getElem _ _ h1,
    List.getD_eq_getElem _ _ h2, List.getD_eq_getElem _ _ h6]
  by_cases hc :
      (decide (data[i].rsi < 30) &&
        (decide (data[i].sma20 > data[i].sma50) &&
          decide (data[i - 1].sma20 ≤ data[i - 1].sma50))) = true
  · simp [hc]
  · simp [hc]

/-- The checked scan over any index list whose every iteration is in
bounds succeeds with exactly the trades of the unchecked scan. -/
theorem scanChecked_eq (ticker : String) (data : List FeatRow) (l : List ℕ)
    (h : ∀ i ∈ l, tradeOptChecked ticker data i = some (tradeOpt ticker data i)) :
    scanChecked ticker data l = some (l.filterMap (tradeOpt ticker data)) := by
  induction l with
  | nil => rfl
  | cons a l ih =>
    rw [scanChecked, h a (List.mem_cons_self a l),
      ih fun i hi => h i (List.mem_cons_of_mem a hi), List.filterMap_cons]
    cases tradeOpt ticker data a <;> rfl

/-- Claim C9: on a cleaned series of at least seven bars, every
`iloc` access of the scan (indices `i-1`, `i`, `i+1`, `i+6`) is in
bounds — the out-of-bounds branch of the checked embedding is never
taken, and the checked scan returns exactly the unchecked scan's
trades. -/
theorem C9_no_out_of_bounds (ticker : String) (data : List FeatRow)
    (h : 7 ≤ data.length) :
    simulateChecked ticker data = some (simulate ticker data) := by
  unfold simulateChecked simulate
  apply scanChecked_eq
  intro i hi
  have hm := List.mem_range'_1.mp hi
  exact tradeOptChecked_eq ticker data i (by omega)

/-- Witness for C9 on the eight-bar series `sampleA`. -/
theorem C9_witness :
    simulateChecked "T" sampleA = some (simulate "T" sampleA) :=
  C9_no_out_of_bounds "T" sampleA (by decide)

/-- Setting the slot allocated for the copy leaves every original
heap slot unchanged. -/
theorem getD_set_append (h : List Frame) (r : ℕ) (hr : r < h.length)
    (x y : Frame) :
    ((h ++ [x]).set h.length y).getD r defFrame = h.getD r defFrame := by
  rw [List.getD_eq_getElem?_getD, List.getD_eq_getElem?_getD,
    List.getElem?_set_ne (by omega), List.getElem?_append]
  rw [if_pos hr]

/-- Claim C10: `run_backtest` never mutates the caller's DataFrame —
it hands `calculate_indicators` a copy, so the frame at the caller's
reference is identical after the call, even though
`calculate_indicators` itself does add the indicator columns in place
to whatever frame it is given (second and third conjuncts). -/
theorem C10_no_mutation (rsiFn : List ℚ → List (Option ℚ)) (h : List Frame)
    (r : ℕ) (ticker : String) (hr : r < h.length) :
    ((run_backtest_st rsiFn h r ticker).2).getD r defFrame = h.getD r defFrame ∧
    ((calcIndicatorsAt rsiFn h r).getD r defFrame).rows =
      (h.getD r defFrame).rows ∧
    ((calcIndicatorsAt rsiFn h r).getD r defFrame).indCols =
      some (calculate_indicators rsiFn (h.getD r defFrame).rows) := by
  have hset : (calcIndicatorsAt rsiFn h r).getD r defFrame =
      { rows := (h.getD r defFrame).rows,
        indCols := some (calculate_indicators rsiFn (h.getD r defFrame).rows) } := by
    unfold calcIndicatorsAt
    rw [List.getD_eq_getElem?_getD, List.getElem?_set_self hr]
    rfl
  refine ⟨?_, by rw [hset], by rw [hset]⟩
  unfold run_backtest_st
  by_cases he : (h.getD r defFrame).rows.isEmpty
  · rw [if_pos he]
  · rw [if_neg he]
    unfold calcIndicatorsAt
    dsimp only
    split
    · exact getD_set_append h r hr _ _
    · exact getD_set_append h r hr _ _

/-- Witness for C10 on a one-frame heap holding a one-bar frame. -/
theorem C10_witness :
    ((run_backtest_st rsiFn0 heap0 0 "T").2).getD 0 defFrame =
      heap0.getD 0 defFrame ∧
    ((calcIndicatorsAt rsiFn0 heap0 0).getD 0 defFrame).rows =
      (heap0.getD 0 defFrame).rows ∧
    ((calcIndicatorsAt rsiFn0 heap0 0).getD 0 defFrame).indCols =
      some (calculate_indicators rsiFn0 (heap0.getD 0 defFrame).rows) :=
  C10_no_mutation rsiFn0 heap0 0 "T" (by decide)

/-- Counterexample to claim C4 as stated: with the three trades of
`ts3` (one Win), the summary's win-ratio field holds the two-decimal
value 33.33, not exactly `100 × W / N = 100 × 1 / 3`. -/
theorem C4_counterexample :
    ¬ (aggregate ts3).win_ratio_pct =
        100 * (((ts3.filter fun t => t.status == "Win").length : ℚ) /
          (ts3.length : ℚ)) := by
  simp [aggregate, ts3, roundTo2]
  norm_num [round_eq]

/-- Claim C4 as amended: the aggregation computes the exact ratio
`100 × W / N` and the exact arithmetic mean of the returns, and the
summary reports each of them rounded to two decimal places (the
percent-string formatting); `total_trades` and the trade log are
exact. -/
theorem C4_aggregate_rounded (trades : List Trade) (hne : trades ≠ []) :
    (aggregate trades).total_trades = trades.length ∧
    (aggregate trades).win_ratio_pct =
      roundTo2 (100 * (((trades.filter fun t => t.status == "Win").length : ℚ) /
        (trades.length : ℚ))) ∧
    (aggregate trades).avg_return_pct =
      roundTo2 ((trades.map Trade.ret).sum / (trades.length : ℚ)) ∧
    (aggregate trades).trade_log = trades := by
  have hlen : 0 < trades.length := List.length_pos.mpr hne
  unfold aggregate
  rw [List.isEmpty_eq_false.mpr hne]
  simp only [Bool.false_eq_true, if_false]
  refine ⟨trivial, ?_, trivial, trivial⟩
  rw [if_pos hlen]
  congr 1
  ring

/-- Witness for the amended C4 at the three concrete trades `ts3`. -/
theorem C4_witness :
    (aggregate ts3).total_trades = ts3.length ∧
    (aggregate ts3).win_ratio_pct =
      roundTo2 (100 * (((ts3.filter fun t => t.status == "Win").length : ℚ) /
        (ts3.length : ℚ))) ∧
    (aggregate ts3).avg_return_pct =
      roundTo2 ((ts3.map Trade.ret).sum / (ts3.length : ℚ)) ∧
    (aggregate ts3).trade_log = ts3 :=
  C4_aggregate_rounded ts3 (by simp [ts3])

end AlgoTrading
